import Mathlib

/-!
Shallow embedding of the `tweenybird` inbetween-frame core
(`gp_inbetween/core`): the confidence scorer (`confidence.rs`), the
feedback aggregation queries (`feedback.rs`), the geometry normalizer
(`preprocessing.rs`) and the orchestrator (`lib.rs`).

Numeric model: the Rust code computes with `f32`/`f64`; here every float
is modelled as an exact rational (`ℚ`).  Machine integers (`u32`, `u64`,
`usize`) are modelled as `Nat`, with Rust's truncating integer division
mapped to `Nat` division.  Fallible file I/O is modelled with `Except`:
a `FeedbackLogger` carries the parsed content of its log file, or the
read failure, as an `Except` value.
-/

set_option maxRecDepth 4000

/-- One RGBA8 pixel; channel values are the raw `u8` values `0..=255`. -/
structure Pixel where
  r : Nat
  g : Nat
  b : Nat
  a : Nat
deriving DecidableEq, Repr

/-- A bitmap: width × height grid of RGBA8 pixels, stored row-major as by
`image::RgbaImage::pixels()`. -/
structure Image where
  width : Nat
  height : Nat
  data : List Pixel
deriving DecidableEq, Repr

/-- The fully transparent black pixel `Rgba([0,0,0,0])`. -/
def Pixel.clear : Pixel := ⟨0, 0, 0, 0⟩

/-- Row-major pixel access with the transparent pixel as out-of-range default. -/
def Image.pixelAt (img : Image) (x y : Nat) : Pixel :=
  img.data.getD (y * img.width + x) Pixel.clear

/-! ### feedback.rs : event log data model and aggregation queries -/

/-- `FeedbackEvent` from feedback.rs: the three event kinds. -/
inductive FeedbackEvent where
  | generation
  | accept
  | reject
deriving DecidableEq, Repr

/-- `FeedbackEntry` from feedback.rs: one parsed line of the JSONL log. -/
structure FeedbackEntry where
  timestamp : Nat
  event : FeedbackEvent
  character : String
  motion_type : String
  frame_number : Option Nat
  auto_accepted : Option Bool
  issues : Option (List String)
  confidence_score : Option ℚ
deriving DecidableEq, Repr

/-- A `FeedbackLogger`: its observable state for the query side is the
outcome of reading and parsing its log file (`read_entries`), i.e. either
the list of parsed entries or an I/O failure. -/
structure FeedbackLogger where
  read_result : Except Unit (List FeedbackEntry)
deriving Repr

/-- The per-entry filter of `get_acceptance_rate` / `get_stats`: optional
equality filters on character and motion type (the two `continue` guards). -/
def matchesFilter (character motion_type : Option String) (e : FeedbackEntry) : Bool :=
  (match character with
   | some ch => e.character == ch
   | none => true) &&
  (match motion_type with
   | some mt => e.motion_type == mt
   | none => true)

/-- The entries surviving both optional filters. -/
def filteredEntries (entries : List FeedbackEntry) (character motion_type : Option String) :
    List FeedbackEntry :=
  entries.filter (matchesFilter character motion_type)

/-- Number of accept events in a list (the `accepts` counter). -/
def acceptsIn (l : List FeedbackEntry) : Nat :=
  (l.filter (fun e => e.event == FeedbackEvent.accept)).length

/-- Number of reject events in a list (the `rejects` counter). -/
def rejectsIn (l : List FeedbackEntry) : Nat :=
  (l.filter (fun e => e.event == FeedbackEvent.reject)).length

/-- Core of `FeedbackLogger::get_acceptance_rate` (feedback.rs lines
208-246), applied to the parsed entries: count accept vs reject events
through the optional filters (generation events fall through the match
arm doing nothing), return `accepts/(accepts+rejects)`, or 0.5 when no
accept or reject event qualified. -/
def acceptance_rate_of (entries : List FeedbackEntry)
    (character motion_type : Option String) : ℚ :=
  let accepts := acceptsIn (filteredEntries entries character motion_type)
  let rejects := rejectsIn (filteredEntries entries character motion_type)
  let total := accepts + rejects
  if total = 0 then 1/2 else (accepts : ℚ) / (total : ℚ)

/-- `FeedbackLogger::get_acceptance_rate`: propagates the log-read failure,
otherwise aggregates the parsed entries. -/
def FeedbackLogger.get_acceptance_rate (l : FeedbackLogger)
    (character motion_type : Option String) : Except Unit ℚ :=
  match l.read_result with
  | .error e => .error e
  | .ok entries => .ok (acceptance_rate_of entries character motion_type)

/-- `Statistics` from feedback.rs. -/
structure Statistics where
  total_generations : Nat
  accepted : Nat
  rejected : Nat
  acceptance_rate : ℚ
  auto_accepted : Nat
  by_motion_type : List (String × ℚ)
  by_character : List (String × ℚ)
  common_issues : List (String × Nat)
deriving DecidableEq, Repr

/-- Bump the (accept, reject) tallies stored under a key of an association
list, inserting the key when absent (models the `HashMap` `entry().or_insert`
updates of `get_stats`; the map is modelled as an association list, since
`HashMap` iteration order is unspecified). -/
def bumpPair (m : List (String × (Nat × Nat))) (k : String) (da dr : Nat) :
    List (String × (Nat × Nat)) :=
  match m with
  | [] => [(k, (da, dr))]
  | (k', v) :: rest =>
    if k' = k then (k', (v.1 + da, v.2 + dr)) :: rest
    else (k', v) :: bumpPair rest k da dr

/-- Per-key accept/reject tallies over the filtered accept and reject events,
keyed by the given projection (motion type or character). -/
def tallyBy (l : List FeedbackEntry) (key : FeedbackEntry → String) :
    List (String × (Nat × Nat)) :=
  l.foldl
    (fun m e =>
      match e.event with
      | .accept => bumpPair m (key e) 1 0
      | .reject => bumpPair m (key e) 0 1
      | .generation => m)
    []

/-- Convert (accept, reject) tallies to acceptance rates; an empty tally
yields 0 (the `if acc + rej > 0` branches of `get_stats`). -/
def toRates (m : List (String × (Nat × Nat))) : List (String × ℚ) :=
  m.map (fun kv =>
    (kv.1, if kv.2.1 + kv.2.2 > 0 then (kv.2.1 : ℚ) / ((kv.2.1 + kv.2.2 : Nat) : ℚ) else 0))

/-- Issue-tag counts over the filtered reject events. -/
def issueCounts (l : List FeedbackEntry) : List (String × Nat) :=
  l.foldl
    (fun m e =>
      match e.event, e.issues with
      | .reject, some issues =>
        issues.foldl
          (fun m' issue =>
            match m'.lookup issue with
            | some _ => m'.map (fun kv => if kv.1 = issue then (kv.1, kv.2 + 1) else kv)
            | none => m' ++ [(issue, 1)])
          m
      | _, _ => m)
    []

/-- Stable insertion into a list sorted descending by count (models the
`sort_by(|a, b| b.1.cmp(&a.1))` over the issue counts). -/
def insertDesc (p : String × Nat) : List (String × Nat) → List (String × Nat)
  | [] => [p]
  | q :: rest => if q.2 < p.2 then p :: q :: rest else q :: insertDesc p rest

/-- Sort issue counts descending by count. -/
def sortIssuesDesc (l : List (String × Nat)) : List (String × Nat) :=
  l.foldl (fun acc p => insertDesc p acc) []

/-- Core of `FeedbackLogger::get_stats` (feedback.rs lines 249-369), applied
to the parsed entries.  The single Rust loop updates independent
accumulators; it is embedded as one pass per accumulator over the same
filtered entries, which computes the same values. -/
def get_stats_of (entries : List FeedbackEntry)
    (character motion_type : Option String) : Statistics :=
  let f := filteredEntries entries character motion_type
  let total_generations := (f.filter (fun e => e.event == FeedbackEvent.generation)).length
  let accepted := acceptsIn f
  let rejected := rejectsIn f
  let auto_accepted :=
    (f.filter (fun e => e.event == FeedbackEvent.accept && e.auto_accepted == some true)).length
  let acceptance_rate : ℚ :=
    if accepted + rejected > 0 then (accepted : ℚ) / ((accepted + rejected : Nat) : ℚ) else 0
  { total_generations := total_generations
    accepted := accepted
    rejected := rejected
    acceptance_rate := acceptance_rate
    auto_accepted := auto_accepted
    by_motion_type := toRates (tallyBy f (fun e => e.motion_type))
    by_character := toRates (tallyBy f (fun e => e.character))
    common_issues := sortIssuesDesc (issueCounts f) }

/-- `FeedbackLogger::get_stats`: propagates the log-read failure, otherwise
aggregates the parsed entries. -/
def FeedbackLogger.get_stats (l : FeedbackLogger)
    (character motion_type : Option String) : Except Unit Statistics :=
  match l.read_result with
  | .error e => .error e
  | .ok entries => .ok (get_stats_of entries character motion_type)

/-! ### confidence.rs : confidence scorer -/

/-- `ConfidenceScorer` state: the auto-accept threshold and the optional
feedback logger handle. -/
structure ConfidenceScorer where
  auto_accept_threshold : ℚ
  feedback_logger : Option FeedbackLogger
deriving Repr

/-- Per-pair 4-channel absolute difference,
`sum_{c} |a_c - b_c|` over r, g, b, a (confidence.rs lines 144-149). -/
def pixelAbsDiff (p q : Pixel) : Nat :=
  ((p.r : Int) - (q.r : Int)).natAbs + ((p.g : Int) - (q.g : Int)).natAbs +
    ((p.b : Int) - (q.b : Int)).natAbs + ((p.a : Int) - (q.a : Int)).natAbs

/-- `ConfidenceScorer::calculate_pixel_difference` (confidence.rs lines
120-163): 0.5 when dimensions differ; otherwise stride-sample up to 500
zipped pixel pairs, keep a pair when either side has alpha > 128, sum the
4-channel absolute differences and normalize by `samples * 1020`;
0 when no pair qualified.  (The Rust accumulator loop is embedded as a
filter over the enumerated zipped pixels.) -/
def ConfidenceScorer.calculate_pixel_difference (img_a img_b : Image) : ℚ :=
  if img_a.width ≠ img_b.width ∨ img_a.height ≠ img_b.height then 1/2
  else
    let total_pixels := img_a.width * img_a.height
    let sample_size := min total_pixels 500
    let step := max total_pixels 1 / max sample_size 1
    let sampled := (img_a.data.zip img_b.data).enum.filter
      (fun ip => ip.1 % step == 0 && (decide (128 < ip.2.1.a) || decide (128 < ip.2.2.a)))
    let samples := sampled.length
    let total_diff := (sampled.map (fun ip => pixelAbsDiff ip.2.1 ip.2.2)).sum
    if samples = 0 then 0
    else (total_diff : ℚ) / ((samples : ℚ) * 1020)

/-- `ConfidenceScorer::check_image_validity` (confidence.rs lines 60-99):
0.5 penalty on a zero dimension; otherwise stride-sample up to 1000 pixels,
0.4 penalty when fewer than a tenth of `sample_size` are non-transparent,
0.2 when mean sampled alpha is below 50, else 0. -/
def ConfidenceScorer.check_image_validity (img : Image) : ℚ :=
  if img.width = 0 ∨ img.height = 0 then 1/2
  else
    let total_pixels := img.width * img.height
    let sample_size := min total_pixels 1000
    let step := total_pixels / sample_size
    let sampled := img.data.enum.filter (fun ip => ip.1 % step == 0)
    let non_transparent := (sampled.filter (fun ip => decide (128 < ip.2.a))).length
    let total_alpha := (sampled.map (fun ip => ip.2.a)).sum
    let avg_alpha : ℚ := (total_alpha : ℚ) / (sample_size : ℚ)
    if non_transparent < sample_size / 10 then 2/5
    else if avg_alpha < 50 then 1/5
    else 0

/-- `ConfidenceScorer::assess_motion_complexity` (confidence.rs lines
102-117): step-function penalty on the source-to-source pixel difference. -/
def ConfidenceScorer.assess_motion_complexity (source_a source_b : Image) : ℚ :=
  let diff := ConfidenceScorer.calculate_pixel_difference source_a source_b
  if diff > 2/5 then 7/20
  else if diff > 3/10 then 1/4
  else if diff > 1/5 then 3/20
  else if diff > 1/10 then 1/20
  else 0

/-- `ConfidenceScorer::check_historical_success` (confidence.rs lines
166-186): 0 without a logger; otherwise the step-function penalty on the
`(character, Some(motion_type))` acceptance rate, and 0 when the rate
query fails. -/
def ConfidenceScorer.check_historical_success (s : ConfidenceScorer)
    (motion_type : String) (character : Option String) : ℚ :=
  match s.feedback_logger with
  | none => 0
  | some logger =>
    match logger.get_acceptance_rate character (some motion_type) with
    | .ok rate =>
      if rate < 3/10 then 7/20
      else if rate < 1/2 then 1/4
      else if rate < 7/10 then 1/10
      else 0
    | .error _ => 0

/-- `ImageStats` from confidence.rs. -/
structure ImageStats where
  brightness : ℚ
  saturation : ℚ
deriving DecidableEq, Repr

/-- Luminance of one pixel with channels normalized to [0,1]
(confidence.rs line 242). -/
def pixelBrightness (p : Pixel) : ℚ :=
  (299/1000) * ((p.r : ℚ) / 255) + (587/1000) * ((p.g : ℚ) / 255) +
    (114/1000) * ((p.b : ℚ) / 255)

/-- Saturation of one pixel: `(max - min) / max` over normalized RGB, 0
when `max = 0` (confidence.rs lines 246-252). -/
def pixelSaturation (p : Pixel) : ℚ :=
  let r : ℚ := (p.r : ℚ) / 255
  let g : ℚ := (p.g : ℚ) / 255
  let b : ℚ := (p.b : ℚ) / 255
  let mx := max (max r g) b
  let mn := min (min r g) b
  if mx > 0 then (mx - mn) / mx else 0

/-- `ConfidenceScorer::calculate_image_stats` (confidence.rs lines 224-270):
mean brightness and saturation over a stride-sample of the opaque
(alpha > 128) pixels; the neutral `{0.5, 0.0}` when none is sampled. -/
def ConfidenceScorer.calculate_image_stats (img : Image) : ImageStats :=
  let total_pixels := img.width * img.height
  let sample_size := min total_pixels 500
  let step := max total_pixels 1 / max sample_size 1
  let sampled := img.data.enum.filter
    (fun ip => ip.1 % step == 0 && decide (128 < ip.2.a))
  let samples := sampled.length
  if samples = 0 then { brightness := 1/2, saturation := 0 }
  else
    { brightness := (sampled.map (fun ip => pixelBrightness ip.2)).sum / (samples : ℚ)
      saturation := (sampled.map (fun ip => pixelSaturation ip.2)).sum / (samples : ℚ) }

/-- `ConfidenceScorer::check_color_consistency` (confidence.rs lines
189-221): additive 0.15 / 0.1 penalties when generated brightness or
saturation deviates from the source midpoint beyond the adaptive
tolerance `|statA - statB| + 0.1`. -/
def ConfidenceScorer.check_color_consistency (generated source_a source_b : Image) : ℚ :=
  let gen_stats := ConfidenceScorer.calculate_image_stats generated
  let a_stats := ConfidenceScorer.calculate_image_stats source_a
  let b_stats := ConfidenceScorer.calculate_image_stats source_b
  let expected_brightness := (a_stats.brightness + b_stats.brightness) / 2
  let expected_saturation := (a_stats.saturation + b_stats.saturation) / 2
  let brightness_tolerance := |a_stats.brightness - b_stats.brightness| + 1/10
  let saturation_tolerance := |a_stats.saturation - b_stats.saturation| + 1/10
  let brightness_diff := |gen_stats.brightness - expected_brightness|
  let saturation_diff := |gen_stats.saturation - expected_saturation|
  (if brightness_diff > brightness_tolerance then (3/20 : ℚ) else 0) +
    (if saturation_diff > saturation_tolerance then (1/10 : ℚ) else 0)

/-- Rust `f32::clamp(lo, hi)`. -/
def clampQ (x lo hi : ℚ) : ℚ :=
  if x < lo then lo else if x > hi then hi else x

/-- `ConfidenceScorer::score_frame` (confidence.rs lines 25-52): 1.0 minus
the four penalties, clamped to [0,1].  The Rust function wraps the value
in `Ok` and can never fail; it is embedded as the pure value. -/
def ConfidenceScorer.score_frame (s : ConfidenceScorer)
    (generated source_a source_b : Image) (motion_type : String)
    (character : Option String) : ℚ :=
  let score := (1 : ℚ)
  let score := score - ConfidenceScorer.check_image_validity generated
  let score := score - ConfidenceScorer.assess_motion_complexity source_a source_b
  let score := score - s.check_historical_success motion_type character
  let score := score - ConfidenceScorer.check_color_consistency generated source_a source_b
  clampQ score 0 1

/-- `ConfidenceScorer::should_auto_accept` (confidence.rs lines 55-57):
non-strict comparison against the threshold. -/
def ConfidenceScorer.should_auto_accept (s : ConfidenceScorer) (score : ℚ) : Bool :=
  decide (s.auto_accept_threshold ≤ score)

/-- `detect_motion_type` (confidence.rs lines 280-294): classify the pixel
difference of the two frames with the fixed breakpoints 0.05 / 0.15 / 0.3.
(The Rust function constructs a throwaway scorer only to call
`calculate_pixel_difference`, which reads no scorer state.) -/
def detect_motion_type (img_a img_b : Image) : String :=
  let diff := ConfidenceScorer.calculate_pixel_difference img_a img_b
  if diff < 1/20 then "static"
  else if diff < 3/20 then "subtle"
  else if diff < 3/10 then "normal"
  else "dynamic"

/-! ### preprocessing.rs : geometry normalizer -/

/-- `PreprocessingConfig` from config.rs. -/
structure PreprocessingConfig where
  cleanup_enabled : Bool
  target_resolution : Nat
  normalize_resolution : Bool
  min_stroke_length : ℚ
deriving Repr

/-- `PaddingInfo` from preprocessing.rs. -/
structure PaddingInfo where
  x_offset : Nat
  y_offset : Nat
  scaled_width : Nat
  scaled_height : Nat
  scale : ℚ
deriving Repr

/-- `Preprocessor` from preprocessing.rs. -/
structure Preprocessor where
  config : PreprocessingConfig
deriving Repr

/-- Models the image crate's resampling, which is external to this
repository, at the level the core relies on: the output bitmap has
exactly the requested dimensions; the content is a resampling of the
source (modelled as nearest-source sampling; the core's claims do not
depend on the resampling kernel). -/
def resample (img : Image) (nwidth nheight : Nat) : Image :=
  { width := nwidth
    height := nheight
    data := (List.range (nwidth * nheight)).map (fun i =>
      let x := i % max nwidth 1
      let y := i / max nwidth 1
      img.pixelAt (x * img.width / max nwidth 1) (y * img.height / max nheight 1)) }

/-- Models the image crate's `resize_dimensions` (used by
`DynamicImage::resize`): the aspect-preserving output size that fits
within the requested bounds, each dimension at least 1. -/
def resize_dimensions (width height nwidth nheight : Nat) : Nat × Nat :=
  let wr : ℚ := (nwidth : ℚ) / (width : ℚ)
  let hr : ℚ := (nheight : ℚ) / (height : ℚ)
  let ratio := min wr hr
  (max (round ((width : ℚ) * ratio)).toNat 1, max (round ((height : ℚ) * ratio)).toNat 1)

/-- Models `DynamicImage::resize` (aspect-preserving fit within the
requested bounds). -/
def image_resize (img : Image) (nwidth nheight : Nat) : Image :=
  let dims := resize_dimensions img.width img.height nwidth nheight
  resample img dims.1 dims.2

/-- Models `DynamicImage::resize_exact`: exact requested output
dimensions, no aspect preservation. -/
def image_resize_exact (img : Image) (nwidth nheight : Nat) : Image :=
  resample img nwidth nheight

/-- Models `DynamicImage::crop_imm`: the crop rectangle is clamped to the
image bounds, then the sub-rectangle is extracted. -/
def image_crop_imm (img : Image) (x y w h : Nat) : Image :=
  let cx := min x img.width
  let cy := min y img.height
  let ch := min h (img.height - cy)
  let cw := min w (img.width - cx)
  { width := cw
    height := ch
    data := (List.range (cw * ch)).map (fun i =>
      img.pixelAt (cx + i % max cw 1) (cy + i / max cw 1)) }

/-- `Preprocessor::normalize_resolution` (preprocessing.rs lines 34-79):
identity when already target×target; otherwise aspect-preserving resize
so the larger dimension meets the target, centered on a fully transparent
target×target canvas.  (The Rust loop copies each resized pixel to
`(x + x_offset, y + y_offset)` when inside the canvas; it is embedded as
the canvas pixel function.) -/
def Preprocessor.normalize_resolution (p : Preprocessor) (img : Image) : Image :=
  let target := p.config.target_resolution
  if img.width = target ∧ img.height = target then img
  else
    let scale : ℚ := (target : ℚ) / ((max img.width img.height : Nat) : ℚ)
    let new_width := (round ((img.width : ℚ) * scale)).toNat
    let new_height := (round ((img.height : ℚ) * scale)).toNat
    let resized := image_resize img new_width new_height
    let x_offset := (target - new_width) / 2
    let y_offset := (target - new_height) / 2
    { width := target
      height := target
      data := (List.range (target * target)).map (fun i =>
        let cx := i % max target 1
        let cy := i / max target 1
        if x_offset ≤ cx ∧ cx < x_offset + resized.width ∧
            y_offset ≤ cy ∧ cy < y_offset + resized.height then
          resized.pixelAt (cx - x_offset) (cy - y_offset)
        else Pixel.clear) }

/-- `Preprocessor::cleanup` (preprocessing.rs lines 82-140): erase pixels
below the 128 alpha threshold and opaque pixels with fewer than 2 of
their 8 neighbors non-transparent, then binarize all surviving alpha
to 255. -/
def Preprocessor.cleanup (img : Image) : Image :=
  let w := img.width
  let h := img.height
  let offs : List (Int × Int) :=
    [(-1, -1), (0, -1), (1, -1), (-1, 0), (1, 0), (-1, 1), (0, 1), (1, 1)]
  let neighbor_count : Nat → Nat → Nat := fun x y =>
    (offs.filter (fun d =>
      let nx : Int := (x : Int) + d.1
      let ny : Int := (y : Int) + d.2
      decide (0 ≤ nx) && decide (nx < (w : Int)) && decide (0 ≤ ny) &&
        decide (ny < (h : Int)) &&
        decide (128 ≤ (img.pixelAt nx.toNat ny.toNat).a))).length
  { width := w
    height := h
    data := (List.range (w * h)).map (fun i =>
      let x := i % max w 1
      let y := i / max w 1
      let pixel := img.pixelAt x y
      if pixel.a < 128 then Pixel.clear
      else if 2 ≤ neighbor_count x y then ⟨pixel.r, pixel.g, pixel.b, 255⟩
      else Pixel.clear) }

/-- `Preprocessor::process` (preprocessing.rs lines 17-31): normalize when
enabled, then clean up when enabled.  The Rust function wraps the result
in `Ok` and can never fail; it is embedded as the pure value. -/
def Preprocessor.process (p : Preprocessor) (img : Image) : Image :=
  let processed := img
  let processed :=
    if p.config.normalize_resolution then p.normalize_resolution processed else processed
  let processed :=
    if p.config.cleanup_enabled then Preprocessor.cleanup processed else processed
  processed

/-- `Preprocessor::get_padding_info` (preprocessing.rs lines 143-160):
`scale = target / max(w, h)`, scaled dimensions by rounding, offsets by
centering with truncating division. -/
def Preprocessor.get_padding_info (p : Preprocessor)
    (original_width original_height : Nat) : PaddingInfo :=
  let target := p.config.target_resolution
  let scale : ℚ := (target : ℚ) / ((max original_width original_height : Nat) : ℚ)
  let new_width := (round ((original_width : ℚ) * scale)).toNat
  let new_height := (round ((original_height : ℚ) * scale)).toNat
  { x_offset := (target - new_width) / 2
    y_offset := (target - new_height) / 2
    scaled_width := new_width
    scaled_height := new_height
    scale := scale }

/-- `Preprocessor::restore_original_size` (preprocessing.rs lines 163-180):
crop away the padding, then resize exactly back to the original
dimensions. -/
def Preprocessor.restore_original_size (_p : Preprocessor) (processed : Image)
    (padding_info : PaddingInfo) (original_width original_height : Nat) : Image :=
  let cropped := image_crop_imm processed padding_info.x_offset padding_info.y_offset
    padding_info.scaled_width padding_info.scaled_height
  image_resize_exact cropped original_width original_height

/-! ### lib.rs : orchestrator -/

/-- `Config` from config.rs, restricted to the fields the orchestrator
reads. -/
structure Config where
  auto_accept_threshold : ℚ
  preprocessing : PreprocessingConfig
deriving Repr

/-- The error kinds `generate_inbetweens` can propagate: image-load
failure, generation-collaborator failure, feedback-log append failure. -/
inductive GenError where
  | loadError
  | backendError
  | logFailure
deriving DecidableEq, Repr

/-- `ScoredFrame` from lib.rs. -/
structure ScoredFrame where
  frame : Image
  score : ℚ
  auto_accept : Bool
deriving Repr

/-- `GenerationMetadata` from lib.rs. -/
structure GenerationMetadata where
  character : Option String
  motion_type : Option String
  auto_accept_threshold : ℚ
  original_width : Nat
  original_height : Nat
deriving Repr

/-- `GenerationResult` from lib.rs. -/
structure GenerationResult where
  frames : List ScoredFrame
  metadata : GenerationMetadata
deriving Repr

/-- `Generator::generate_inbetweens` (lib.rs lines 44-134).  The effectful
collaborators are passed as their outcomes: `load_a` / `load_b` model
`image::open` on the two paths, `api_call` models
`ApiClient::generate_inbetweens` on the two preprocessed frames, and
`log_append` models the file append inside
`FeedbackLogger::log_generation`.  Every `?` of the Rust function is a
monadic bind: each failure, including the final log append, propagates
as the function's error (each `?` is embedded as an explicit match on the
`Except` outcome). -/
def Generator.generate_inbetweens (config : Config) (scorer : ConfidenceScorer)
    (preproc : Preprocessor)
    (load_a load_b : Except GenError Image)
    (api_call : Image → Image → Nat → Except GenError (List Image))
    (log_append : Except GenError Unit)
    (num_frames : Nat) (character : Option String) (motion_type : Option String) :
    Except GenError GenerationResult :=
  match load_a with
  | .error e => .error e
  | .ok img_a =>
    match load_b with
    | .error e => .error e
    | .ok img_b =>
      let orig_width := img_a.width
      let orig_height := img_a.height
      let padding_info := preproc.get_padding_info orig_width orig_height
      let cleaned_a := preproc.process img_a
      let cleaned_b := preproc.process img_b
      let detected_motion :=
        match motion_type with
        | some mt => mt
        | none => detect_motion_type cleaned_a cleaned_b
      match api_call cleaned_a cleaned_b num_frames with
      | .error e => .error e
      | .ok generated =>
        let scored_frames := generated.map (fun frame =>
          let score := scorer.score_frame frame cleaned_a cleaned_b detected_motion character
          let final_frame :=
            if config.preprocessing.normalize_resolution then
              preproc.restore_original_size frame padding_info orig_width orig_height
            else frame
          { frame := final_frame
            score := score
            auto_accept := scorer.should_auto_accept score })
        match log_append with
        | .error e => .error e
        | .ok _ =>
          .ok { frames := scored_frames
                metadata := { character := character
                              motion_type := some detected_motion
                              auto_accept_threshold := config.auto_accept_threshold
                              original_width := orig_width
                              original_height := orig_height } }

/-! ### Shared helper lemmas -/

/-- Rounding `w * (t / m)` for `w ≤ m` stays below the target `t`. -/
theorem round_scaled_le_target (w m t : Nat) (hm : 0 < m) (hw : w ≤ m) :
    (round ((w : ℚ) * ((t : ℚ) / (m : ℚ)))).toNat ≤ t := by
  have hm' : (0 : ℚ) < (m : ℚ) := by exact_mod_cast hm
  have hq : (w : ℚ) * ((t : ℚ) / (m : ℚ)) ≤ (t : ℚ) := by
    rw [mul_div_assoc']
    rw [div_le_iff₀ hm']
    have hw' : (w : ℚ) ≤ (m : ℚ) := by exact_mod_cast hw
    have ht' : (0 : ℚ) ≤ (t : ℚ) := t.cast_nonneg
    nlinarith
  have hround : round ((w : ℚ) * ((t : ℚ) / (m : ℚ))) ≤ round ((t : ℚ)) := by
    rw [round_eq, round_eq]
    exact Int.floor_le_floor (by linarith)
  rw [round_natCast] at hround
  exact Int.toNat_le.mpr hround

/-! ### Claim theorems -/

/-- C4: for every scorer state and all input bitmaps (including degenerate
0×0 images), every motion-type string and optional character,
`score_frame` returns a value in [0, 1]: it is 1 minus the four penalties
clamped to [0, 1], and it is a total function of its inputs. -/
theorem C4_score_frame_in_unit_interval (s : ConfidenceScorer)
    (generated source_a source_b : Image) (motion_type : String)
    (character : Option String) :
    0 ≤ s.score_frame generated source_a source_b motion_type character ∧
      s.score_frame generated source_a source_b motion_type character ≤ 1 := by
  simp only [ConfidenceScorer.score_frame, clampQ]
  split_ifs with h1 h2
  · exact ⟨le_refl 0, by norm_num⟩
  · exact ⟨by norm_num, le_refl 1⟩
  · constructor <;> linarith

/-- C9: `should_auto_accept` is the non-strict comparison `score ≥ threshold`:
it is true exactly on `threshold ≤ score`, true at exact equality, and false
at `threshold - ε` for every ε > 0. -/
theorem C9_should_auto_accept_boundary (s : ConfidenceScorer) (score : ℚ) :
    (s.should_auto_accept score = true ↔ s.auto_accept_threshold ≤ score) ∧
    s.should_auto_accept s.auto_accept_threshold = true ∧
    (∀ ε : ℚ, 0 < ε → s.should_auto_accept (s.auto_accept_threshold - ε) = false) := by
  refine ⟨?_, ?_, ?_⟩
  · simp [ConfidenceScorer.should_auto_accept]
  · simp [ConfidenceScorer.should_auto_accept]
  · intro ε hε
    simp only [ConfidenceScorer.should_auto_accept, decide_eq_false_iff_not, not_le]
    linarith

/-- C9 witness: at threshold 0.85, a score of exactly 0.85 auto-accepts and
a score of 0.85 − 0.01 does not. -/
theorem C9_witness :
    ConfidenceScorer.should_auto_accept ⟨17/20, none⟩ (17/20) = true ∧
    ConfidenceScorer.should_auto_accept ⟨17/20, none⟩ (17/20 - 1/100) = false :=
  ⟨(C9_should_auto_accept_boundary ⟨17/20, none⟩ 0).2.1,
   (C9_should_auto_accept_boundary ⟨17/20, none⟩ 0).2.2 (1/100) (by norm_num)⟩

/-- C6: `detect_motion_type` partitions the pixel difference
`d = calculate_pixel_difference a b` into exactly the four bands at the
breakpoints 0.05 (= 1/20), 0.15 (= 3/20) and 0.3 (= 3/10): "static" iff
d < 0.05, "subtle" iff 0.05 ≤ d < 0.15, "normal" iff 0.15 ≤ d < 0.3 and
"dynamic" iff 0.3 ≤ d.  It is a pure function of the two images alone
(the embedding takes no scorer state). -/
theorem C6_detect_motion_type_bands (a b : Image) :
    (detect_motion_type a b = "static" ↔
      ConfidenceScorer.calculate_pixel_difference a b < 1/20) ∧
    (detect_motion_type a b = "subtle" ↔
      (1/20 ≤ ConfidenceScorer.calculate_pixel_difference a b ∧
        ConfidenceScorer.calculate_pixel_difference a b < 3/20)) ∧
    (detect_motion_type a b = "normal" ↔
      (3/20 ≤ ConfidenceScorer.calculate_pixel_difference a b ∧
        ConfidenceScorer.calculate_pixel_difference a b < 3/10)) ∧
    (detect_motion_type a b = "dynamic" ↔
      3/10 ≤ ConfidenceScorer.calculate_pixel_difference a b) := by
  simp only [detect_motion_type]
  set d := ConfidenceScorer.calculate_pixel_difference a b with hd
  split_ifs with h1 h2 h3
  · refine ⟨iff_of_true rfl h1, iff_of_false (by decide) ?_, iff_of_false (by decide) ?_,
      iff_of_false (by decide) ?_⟩
    · rintro ⟨h', _⟩; linarith
    · rintro ⟨h', _⟩; linarith
    · intro h'; linarith
  · rw [not_lt] at h1
    refine ⟨iff_of_false (by decide) (not_lt.mpr h1), iff_of_true rfl ⟨h1, h2⟩,
      iff_of_false (by decide) ?_, iff_of_false (by decide) ?_⟩
    · rintro ⟨h', _⟩; linarith
    · intro h'; linarith
  · rw [not_lt] at h1 h2
    refine ⟨iff_of_false (by decide) (not_lt.mpr h1), iff_of_false (by decide) ?_,
      iff_of_true rfl ⟨h2, h3⟩, iff_of_false (by decide) ?_⟩
    · rintro ⟨_, h'⟩; linarith
    · intro h'; linarith
  · rw [not_lt] at h1 h2 h3
    refine ⟨iff_of_false (by decide) (not_lt.mpr h1), iff_of_false (by decide) ?_,
      iff_of_false (by decide) ?_, iff_of_true rfl h3⟩
    · rintro ⟨_, h'⟩; linarith
    · rintro ⟨_, h'⟩; linarith

/-- C8: `calculate_pixel_difference` returns exactly 0.5 whenever the two
bitmaps' widths or heights differ (before any pixel is sampled); and on
identical dimensions it returns exactly 0 when no sampled pair has either
side's alpha above 128. -/
theorem C8_pixel_difference_degenerate (a b : Image) :
    (a.width ≠ b.width ∨ a.height ≠ b.height →
      ConfidenceScorer.calculate_pixel_difference a b = 1/2) ∧
    (a.width = b.width → a.height = b.height →
      (∀ ip ∈ (a.data.zip b.data).enum,
        ip.1 % (max (a.width * a.height) 1 / max (min (a.width * a.height) 500) 1) = 0 →
        ip.2.1.a ≤ 128 ∧ ip.2.2.a ≤ 128) →
      ConfidenceScorer.calculate_pixel_difference a b = 0) := by
  constructor
  · intro h
    simp only [ConfidenceScorer.calculate_pixel_difference]
    rw [if_pos h]
  · intro hw hh hquiet
    simp only [ConfidenceScorer.calculate_pixel_difference]
    rw [if_neg (by simp [hw, hh])]
    have hfilter :
        ((a.data.zip b.data).enum.filter
          (fun ip => ip.1 % (max (a.width * a.height) 1 / max (min (a.width * a.height) 500) 1)
              == 0 &&
            (decide (128 < ip.2.1.a) || decide (128 < ip.2.2.a)))) = [] := by
      apply List.filter_eq_nil_iff.mpr
      intro ip hip
      simp only [Bool.and_eq_true, beq_iff_eq, Bool.or_eq_true, decide_eq_true_eq, not_and,
        not_or, not_lt]
      intro hstep
      exact hquiet ip hip hstep
    simp only [hfilter, List.length_nil, List.map_nil, List.sum_nil]
    norm_num

/-- Sample images for concrete checks. -/
def imgOneWhite : Image := ⟨1, 1, [⟨255, 255, 255, 255⟩]⟩

/-- A 2×1 fully opaque white image. -/
def imgTwoWide : Image := ⟨2, 1, [⟨255, 255, 255, 255⟩, ⟨255, 255, 255, 255⟩]⟩

/-- A 1×1 fully transparent image. -/
def imgOneClear : Image := ⟨1, 1, [⟨0, 0, 0, 0⟩]⟩

/-- C8 witness: a 1×1 vs a 2×1 image yield exactly 0.5, and two 1×1 fully
transparent images (no qualifying sample pair) yield exactly 0. -/
theorem C8_witness :
    ConfidenceScorer.calculate_pixel_difference imgOneWhite imgTwoWide = 1/2 ∧
    ConfidenceScorer.calculate_pixel_difference imgOneClear imgOneClear = 0 :=
  ⟨(C8_pixel_difference_degenerate imgOneWhite imgTwoWide).1 (Or.inl (by decide)),
   (C8_pixel_difference_degenerate imgOneClear imgOneClear).2 rfl rfl (by decide)⟩

/-- A minimal feedback entry of a given kind for concrete checks. -/
def sampleEntry (ev : FeedbackEvent) : FeedbackEntry :=
  { timestamp := 0
    event := ev
    character := "hero"
    motion_type := "walk"
    frame_number := none
    auto_accepted := none
    issues := none
    confidence_score := none }

/-- C5: the acceptance rate counts only accept and reject events passing
the optional equality filters and equals `accepts/(accepts+rejects)`;
prepending a generation event never changes it; an empty filtered
accept/reject set yields exactly 1/2; an all-accept set yields 1; an
all-reject set yields 0. -/
theorem C5_acceptance_rate_contract (entries : List FeedbackEntry)
    (ch mt : Option String) :
    (acceptance_rate_of entries ch mt =
      if acceptsIn (filteredEntries entries ch mt) + rejectsIn (filteredEntries entries ch mt)
          = 0 then 1/2
      else (acceptsIn (filteredEntries entries ch mt) : ℚ) /
        ((acceptsIn (filteredEntries entries ch mt) +
          rejectsIn (filteredEntries entries ch mt) : Nat) : ℚ)) ∧
    (∀ e : FeedbackEntry, e.event = FeedbackEvent.generation →
      acceptance_rate_of (e :: entries) ch mt = acceptance_rate_of entries ch mt) ∧
    (acceptsIn (filteredEntries entries ch mt) + rejectsIn (filteredEntries entries ch mt) = 0 →
      acceptance_rate_of entries ch mt = 1/2) ∧
    (rejectsIn (filteredEntries entries ch mt) = 0 →
      0 < acceptsIn (filteredEntries entries ch mt) →
      acceptance_rate_of entries ch mt = 1) ∧
    (acceptsIn (filteredEntries entries ch mt) = 0 →
      0 < rejectsIn (filteredEntries entries ch mt) →
      acceptance_rate_of entries ch mt = 0) := by
  refine ⟨rfl, ?_, ?_, ?_, ?_⟩
  · intro e he
    simp only [acceptance_rate_of, filteredEntries, acceptsIn, rejectsIn, List.filter_cons]
    by_cases hm : matchesFilter ch mt e
    · simp [hm, he]
    · simp [hm]
  · intro h0
    simp only [acceptance_rate_of]
    rw [if_pos h0]
  · intro hr ha
    simp only [acceptance_rate_of]
    rw [if_neg (by omega)]
    rw [hr, Nat.add_zero]
    exact div_self (by exact_mod_cast Nat.pos_iff_ne_zero.mp ha)
  · intro ha hr
    simp only [acceptance_rate_of]
    rw [if_neg (by omega)]
    rw [ha]
    simp

/-- C5 witness: concrete log contents exercising each case — prepending a
generation event leaves the rate unchanged, an empty log yields 1/2, a
single accept yields 1, a single reject yields 0. -/
theorem C5_witness :
    acceptance_rate_of (sampleEntry FeedbackEvent.generation :: [sampleEntry FeedbackEvent.accept])
        none none =
      acceptance_rate_of [sampleEntry FeedbackEvent.accept] none none ∧
    acceptance_rate_of [] none none = 1/2 ∧
    acceptance_rate_of [sampleEntry FeedbackEvent.accept] none none = 1 ∧
    acceptance_rate_of [sampleEntry FeedbackEvent.reject] none none = 0 :=
  ⟨(C5_acceptance_rate_contract [sampleEntry FeedbackEvent.accept] none none).2.1
      (sampleEntry FeedbackEvent.generation) rfl,
   (C5_acceptance_rate_contract [] none none).2.2.1 rfl,
   (C5_acceptance_rate_contract [sampleEntry FeedbackEvent.accept] none none).2.2.2.1
      (by decide) (by decide),
   (C5_acceptance_rate_contract [sampleEntry FeedbackEvent.reject] none none).2.2.2.2
      (by decide) (by decide)⟩

/-- C7: for positive original dimensions and target, `get_padding_info`
satisfies `scale = target / max(w, h)`,
`scaled_width = round(w * scale)`, `scaled_height = round(h * scale)`,
`x_offset + scaled_width ≤ target` and
`y_offset + scaled_height ≤ target` (symmetric centering with truncating
division on the offsets). -/
theorem C7_padding_info_invariants (p : Preprocessor) (w h : Nat)
    (hw : 0 < w) (hh : 0 < h) (ht : 0 < p.config.target_resolution) :
    (p.get_padding_info w h).scale =
      ((p.config.target_resolution : ℚ) / ((max w h : Nat) : ℚ)) ∧
    (p.get_padding_info w h).scaled_width =
      (round ((w : ℚ) * (p.get_padding_info w h).scale)).toNat ∧
    (p.get_padding_info w h).scaled_height =
      (round ((h : ℚ) * (p.get_padding_info w h).scale)).toNat ∧
    (p.get_padding_info w h).x_offset + (p.get_padding_info w h).scaled_width ≤
      p.config.target_resolution ∧
    (p.get_padding_info w h).y_offset + (p.get_padding_info w h).scaled_height ≤
      p.config.target_resolution := by
  have hm : 0 < max w h := lt_max_of_lt_left hw
  have hnw : (p.get_padding_info w h).scaled_width ≤ p.config.target_resolution :=
    round_scaled_le_target w (max w h) p.config.target_resolution hm (le_max_left w h)
  have hnh : (p.get_padding_info w h).scaled_height ≤ p.config.target_resolution :=
    round_scaled_le_target h (max w h) p.config.target_resolution hm (le_max_right w h)
  refine ⟨rfl, rfl, rfl, ?_, ?_⟩
  · have hx : (p.get_padding_info w h).x_offset =
        (p.config.target_resolution - (p.get_padding_info w h).scaled_width) / 2 := rfl
    omega
  · have hy : (p.get_padding_info w h).y_offset =
        (p.config.target_resolution - (p.get_padding_info w h).scaled_height) / 2 := rfl
    omega

/-- A preprocessor with a 4-pixel target square, resolution normalization
on and cleanup off, for concrete checks. -/
def samplePreproc : Preprocessor :=
  ⟨{ cleanup_enabled := false, target_resolution := 4,
     normalize_resolution := true, min_stroke_length := 5 }⟩

/-- C7 witness: the invariants hold at a 2×1 original with target 4. -/
theorem C7_witness :
    (samplePreproc.get_padding_info 2 1).scale =
      ((samplePreproc.config.target_resolution : ℚ) / ((max 2 1 : Nat) : ℚ)) ∧
    (samplePreproc.get_padding_info 2 1).scaled_width =
      (round ((2 : ℚ) * (samplePreproc.get_padding_info 2 1).scale)).toNat ∧
    (samplePreproc.get_padding_info 2 1).scaled_height =
      (round ((1 : ℚ) * (samplePreproc.get_padding_info 2 1).scale)).toNat ∧
    (samplePreproc.get_padding_info 2 1).x_offset +
        (samplePreproc.get_padding_info 2 1).scaled_width ≤
      samplePreproc.config.target_resolution ∧
    (samplePreproc.get_padding_info 2 1).y_offset +
        (samplePreproc.get_padding_info 2 1).scaled_height ≤
      samplePreproc.config.target_resolution :=
  C7_padding_info_invariants samplePreproc 2 1 (by norm_num) (by norm_num)
    (by simp [samplePreproc])

/-- C3: for every input bitmap and all positive original dimensions and
positive target, restoring the normalized bitmap through the computed
padding info yields a bitmap with exactly the original pixel dimensions
(the final `resize_exact` pins the output dimensions). -/
theorem C3_restore_dimension_roundtrip (p : Preprocessor) (img : Image)
    (ow oh : Nat) (hw : 0 < ow) (hh : 0 < oh)
    (ht : 0 < p.config.target_resolution) :
    (p.restore_original_size (p.normalize_resolution img) (p.get_padding_info ow oh)
        ow oh).width = ow ∧
    (p.restore_original_size (p.normalize_resolution img) (p.get_padding_info ow oh)
        ow oh).height = oh := by
  constructor <;> rfl

/-- C3 witness: a 2×1 image, target 4: the round trip restores 2×1. -/
theorem C3_witness :
    (samplePreproc.restore_original_size (samplePreproc.normalize_resolution imgTwoWide)
        (samplePreproc.get_padding_info 2 1) 2 1).width = 2 ∧
    (samplePreproc.restore_original_size (samplePreproc.normalize_resolution imgTwoWide)
        (samplePreproc.get_padding_info 2 1) 2 1).height = 1 :=
  C3_restore_dimension_roundtrip samplePreproc imgTwoWide 2 1 (by norm_num) (by norm_num)
    (by simp [samplePreproc])

/-- C1 counterexample: a scorer holding an aggregator whose log reads
successfully and is empty (so no accept or reject event matches any
filter) has historical penalty 1/10, not 0: the no-data rate query
returns `Ok(0.5)`, and 0.5 falls in the `rate < 0.7` penalty band. -/
theorem C1_counterexample_no_data_penalty :
    ConfidenceScorer.check_historical_success
      { auto_accept_threshold := 17/20,
        feedback_logger := some { read_result := Except.ok [] } } "walk" none ≠ 0 := by
  norm_num [ConfidenceScorer.check_historical_success, FeedbackLogger.get_acceptance_rate,
    acceptance_rate_of, filteredEntries, acceptsIn, rejectsIn]

/-- C1 amended: when the scorer holds an aggregator whose log read
succeeds and contains no accept or reject event matching the
`(character, motionType)` filter, the historical penalty is exactly 1/10
(the neutral no-data rate 0.5 lands in the `rate < 0.7` band); the
penalty is 0 exactly in the other two degenerate situations — no
aggregator present, or the rate query failing with a log-read error. -/
theorem C1_amended_no_data_penalty :
    (∀ (th : ℚ) (entries : List FeedbackEntry) (mt : String) (ch : Option String),
      acceptsIn (filteredEntries entries ch (some mt)) = 0 →
      rejectsIn (filteredEntries entries ch (some mt)) = 0 →
      ConfidenceScorer.check_historical_success
        { auto_accept_threshold := th,
          feedback_logger := some { read_result := Except.ok entries } } mt ch = 1/10) ∧
    (∀ (th : ℚ) (mt : String) (ch : Option String),
      ConfidenceScorer.check_historical_success
        { auto_accept_threshold := th, feedback_logger := none } mt ch = 0) ∧
    (∀ (th : ℚ) (mt : String) (ch : Option String),
      ConfidenceScorer.check_historical_success
        { auto_accept_threshold := th,
          feedback_logger := some { read_result := Except.error () } } mt ch = 0) := by
  refine ⟨?_, ?_, ?_⟩
  · intro th entries mt ch ha hr
    have hrate : acceptance_rate_of entries ch (some mt) = 1/2 := by
      simp only [acceptance_rate_of]
      rw [if_pos (by omega)]
    simp only [ConfidenceScorer.check_historical_success,
      FeedbackLogger.get_acceptance_rate, hrate]
    norm_num
  · intro th mt ch
    rfl
  · intro th mt ch
    rfl

/-- C1 amended witness: at a concrete scorer over an empty, readable log,
the historical penalty evaluates to exactly 1/10, and with no aggregator
it evaluates to 0. -/
theorem C1_amended_witness :
    ConfidenceScorer.check_historical_success
      { auto_accept_threshold := 17/20,
        feedback_logger := some { read_result := Except.ok [] } } "walk" none = 1/10 ∧
    ConfidenceScorer.check_historical_success
      { auto_accept_threshold := 17/20, feedback_logger := none } "walk" none = 0 :=
  ⟨C1_amended_no_data_penalty.1 (17/20) [] "walk" none rfl rfl,
   C1_amended_no_data_penalty.2.1 (17/20) "walk" none⟩

/-- C10: when the filtered set contains no accept or reject event, the
`acceptance_rate` field of `get_stats` is exactly 0 while
`get_acceptance_rate` returns the neutral 0.5 on the same log and
filters: the two queries disagree on the no-data default. -/
theorem C10_stats_vs_rate_no_data (entries : List FeedbackEntry) (ch mt : Option String)
    (ha : acceptsIn (filteredEntries entries ch mt) = 0)
    (hr : rejectsIn (filteredEntries entries ch mt) = 0) :
    (get_stats_of entries ch mt).acceptance_rate = 0 ∧
    acceptance_rate_of entries ch mt = 1/2 ∧
    (get_stats_of entries ch mt).acceptance_rate ≠ acceptance_rate_of entries ch mt := by
  have hstats : (get_stats_of entries ch mt).acceptance_rate = 0 := by
    simp only [get_stats_of]
    rw [if_neg (by omega)]
  have hrate : acceptance_rate_of entries ch mt = 1/2 := by
    simp only [acceptance_rate_of]
    rw [if_pos (by omega)]
  refine ⟨hstats, hrate, ?_⟩
  rw [hstats, hrate]
  norm_num

/-- C10 witness: the disagreement at an empty log with no filters. -/
theorem C10_witness :
    (get_stats_of [] none none).acceptance_rate = 0 ∧
    acceptance_rate_of [] none none = 1/2 ∧
    (get_stats_of [] none none).acceptance_rate ≠ acceptance_rate_of [] none none :=
  C10_stats_vs_rate_no_data [] none none rfl rfl

/-- A config with normalization and cleanup off and a 1-pixel target, for
concrete orchestrator checks. -/
def sampleConfig : Config :=
  { auto_accept_threshold := 17/20
    preprocessing :=
      { cleanup_enabled := false, target_resolution := 1,
        normalize_resolution := false, min_stroke_length := 5 } }

/-- C2 counterexample: a request whose loads succeed and whose generation
succeeds with one frame, but whose final generation-event log append
fails, does NOT return the successful `GenerationResult`:
`generate_inbetweens` propagates the log failure as the request's error
(the `?` on `log_generation`), unwinding the completed generation. -/
theorem C2_counterexample_log_failure_unwinds :
    Generator.generate_inbetweens sampleConfig ⟨17/20, none⟩ ⟨sampleConfig.preprocessing⟩
      (.ok imgOneWhite) (.ok imgOneWhite)
      (fun _ _ _ => .ok [imgOneWhite]) (.error .logFailure)
      1 none (some "walk") = .error GenError.logFailure := rfl

/-- C2 amended: when both source loads succeed, the generation collaborator
returns frames, and the final feedback-log append fails with error `e`,
`generate_inbetweens` returns `Err(e)` — the log failure is propagated as
fatal to the whole request rather than being confined to the logging
step (exactly the behavior §9 of the spec flags as the open design
question). -/
theorem C2_amended_log_failure_propagates (config : Config) (scorer : ConfidenceScorer)
    (preproc : Preprocessor) (img_a img_b : Image)
    (api_call : Image → Image → Nat → Except GenError (List Image))
    (frames : List Image) (e : GenError) (num_frames : Nat)
    (character motion_type : Option String)
    (happi : api_call (preproc.process img_a) (preproc.process img_b) num_frames =
      .ok frames) :
    Generator.generate_inbetweens config scorer preproc (.ok img_a) (.ok img_b)
      api_call (.error e) num_frames character motion_type = .error e := by
  simp only [Generator.generate_inbetweens, happi]

/-- C2 amended witness: a concrete request with a failing log append
returns the log error. -/
theorem C2_amended_witness :
    Generator.generate_inbetweens sampleConfig ⟨17/20, none⟩ ⟨sampleConfig.preprocessing⟩
      (.ok imgOneWhite) (.ok imgOneWhite)
      (fun _ _ _ => .ok []) (.error .backendError)
      2 (some "hero") none = .error GenError.backendError :=
  C2_amended_log_failure_propagates sampleConfig ⟨17/20, none⟩ ⟨sampleConfig.preprocessing⟩
    imgOneWhite imgOneWhite (fun _ _ _ => .ok []) [] GenError.backendError 2
    (some "hero") none rfl
